import Mathlib

/-!
Verification of the lazy stream-pipeline library (stream/stream.py)
against its specification.

The embedding models the Python `Stream` class shallowly:
- an underlying iterable is either a Python list or a lazy generator
  object (generators compare by identity and have no len);
- Python exceptions raised by terminal or chaining operations are
  modelled with `Except PyErr`;
- Python `None` is modelled by `Option` where a claim depends on it.

`IteratorUtils` and `Optional` live in modules of the repository that
are not part of the analysed sources; where their behavior decides a
claim they are modelled from the spec (marked in doc comments).
-/

namespace PyStream

/-- Python exceptions that the embedded fragment can raise. -/
inductive PyErr : Type where
  | valueError : PyErr
  | typeError : PyErr
deriving DecidableEq, Repr

/-- The underlying iterable stored in a Stream (`self.__iterable`):
either a Python list of elements, or a lazy generator object.
Modelled from the spec: `IteratorUtils` combinators and sources are
nested closures over Python iterators (spec section 9), i.e. generator
objects; a generator is identified by an object id (Python `==` on
generators is identity) and carries the finite sequence of elements it
will yield when driven. -/
inductive PyIterable (α : Type) : Type where
  | list : List α → PyIterable α
  | gen : Nat → List α → PyIterable α
deriving DecidableEq, Repr

/-- The sequence of elements a full single traversal of the iterable
yields (what `for elem in self.__iterable` sees). -/
def PyIterable.materialize : PyIterable α → List α
  | .list l => l
  | .gen _ l => l

/-- Python `len(iterable)`: defined for a list, raises TypeError on a
generator object. -/
def pyLen : PyIterable α → Except PyErr Nat
  | .list l => .ok l.length
  | .gen _ _ => .error .typeError

/-- The Stream class: wraps exactly one underlying iterable. -/
structure Stream (α : Type) : Type where
  iterable : PyIterable α
deriving DecidableEq, Repr

/-- Terminal `toList`: `list(self.__iterable)`. -/
def Stream.toList (s : Stream α) : List α :=
  s.iterable.materialize

/-- Modelled from the spec: `IteratorUtils.filter` (not under the
analysed sources) is the lazy pull loop of spec section 4.2: on pull,
repeatedly pulls upstream until the predicate holds or upstream
exhausts; over a finite upstream a full drive therefore yields exactly
the matching elements in order. -/
def iterFilter (pred : α → Bool) : List α → List α
  | [] => []
  | x :: xs => if pred x then x :: iterFilter pred xs else iterFilter pred xs

/-- Chaining `Stream.filter`: wraps the upstream in the
`IteratorUtils.filter` generator and returns a new Stream over it. -/
def Stream.filter (s : Stream α) (pred : α → Bool) : Stream α :=
  ⟨.gen 0 (iterFilter pred s.iterable.materialize)⟩

/-- Modelled from the spec: `IteratorUtils.takeWhile` forwards elements
while the predicate holds and signals exhaustion permanently at the
first failing element (spec section 4.2). -/
def iterTakeWhile (pred : α → Bool) : List α → List α
  | [] => []
  | x :: xs => if pred x then x :: iterTakeWhile pred xs else []

/-- Modelled from the spec: `IteratorUtils.dropWhile` discards the
leading run of elements satisfying the predicate; from the first
failing element on, everything is forwarded unconditionally
(spec section 4.2). -/
def iterDropWhile (pred : α → Bool) : List α → List α
  | [] => []
  | x :: xs => if pred x then iterDropWhile pred xs else x :: xs

/-- Chaining `Stream.takeWhile`. -/
def Stream.takeWhile (s : Stream α) (pred : α → Bool) : Stream α :=
  ⟨.gen 0 (iterTakeWhile pred s.iterable.materialize)⟩

/-- Chaining `Stream.dropWhile`. -/
def Stream.dropWhile (s : Stream α) (pred : α → Bool) : Stream α :=
  ⟨.gen 0 (iterDropWhile pred s.iterable.materialize)⟩

/-- Terminal `anyMatch`: `any([predicate(elem) for elem in
self.__iterable])` — the list comprehension applies the predicate to
every element of a full traversal, then `any` is taken over the
resulting list of booleans. -/
def Stream.anyMatch (s : Stream α) (pred : α → Bool) : Bool :=
  (s.iterable.materialize.map pred).any id

/-- Terminal `noneMatch`: `len(self.__iterable) == 0 or not
self.anyMatch(predicate)` — `len` is evaluated first and raises
TypeError when the underlying iterable is a generator. -/
def Stream.noneMatch (s : Stream α) (pred : α → Bool) : Except PyErr Bool :=
  match pyLen s.iterable with
  | .error e => .error e
  | .ok n => .ok (n == 0 || !(s.anyMatch pred))

/-- Terminal `findFirst`: the for loop returns an Optional of the first
element pulled, and an empty Optional when the iterable is immediately
exhausted. The Optional Value container is modelled by `Option`
(modelled from the spec: present flag with value, section 3). -/
def Stream.findFirst (s : Stream α) : Option α :=
  s.iterable.materialize.head?

/-- Terminal `findAny`: `return self.findFirst()`. -/
def Stream.findAny (s : Stream α) : Option α :=
  s.findFirst

/-- The loop body of `Stream.reduce`: `result` starts as the identity
(Python None when omitted, modelled by `none`); for each element, if
`result is None` the element seeds it, otherwise the accumulator
combines them. Elements and accumulator results are Python values that
may themselves be None, hence `Option V`. -/
def reduceLoop (acc : Option V → Option V → Option V) :
    Option V → List (Option V) → Option V
  | result, [] => result
  | none, e :: es => reduceLoop acc e es
  | some v, e :: es => reduceLoop acc (acc (some v) e) es

/-- Terminal `reduce`: runs the loop and returns
`Optional.ofNullable(result)` — an empty Optional exactly when the
final `result` is None (`Optional.ofNullable` modelled from the spec:
empty if the argument is null). -/
def Stream.reduce (s : Stream (Option V)) (acc : Option V → Option V → Option V)
    (identity : Option V) : Option V :=
  reduceLoop acc identity s.iterable.materialize

/-- Python builtin `min(iterable)` under a strict-less test: raises
ValueError on an empty iterable, otherwise folds keeping the earliest
smallest element. -/
def pyMinWith (lt : α → α → Bool) : List α → Except PyErr α
  | [] => .error .valueError
  | x :: xs => .ok (xs.foldl (fun acc y => if lt y acc then y else acc) x)

/-- Python builtin `max(iterable)` under a strict-less test: raises
ValueError on an empty iterable, otherwise folds keeping the earliest
largest element. -/
def pyMaxWith (lt : α → α → Bool) : List α → Except PyErr α
  | [] => .error .valueError
  | x :: xs => .ok (xs.foldl (fun acc y => if lt acc y then y else acc) x)

/-- Terminal `Stream.min`: `Optional.ofNullable(min(self.__iterable,
key=cmp_to_key(comparator)))` when a comparator is given, else
`Optional.ofNullable(min(self.__iterable))`; `cmp_to_key` makes
`a < b` mean `comparator(a, b) < 0`. The builtin `min` runs before
`Optional.ofNullable`, so on an empty iterable the ValueError
propagates. -/
def Stream.min [LinearOrder α] (s : Stream α)
    (comparator : Option (α → α → Int)) : Except PyErr (Option α) :=
  match comparator with
  | none => (pyMinWith (fun a b => decide (a < b)) s.iterable.materialize).map some
  | some c => (pyMinWith (fun a b => decide (c a b < 0)) s.iterable.materialize).map some

/-- Terminal `Stream.max`: the dual of `Stream.min`, via builtin
`max`. -/
def Stream.max [LinearOrder α] (s : Stream α)
    (comparator : Option (α → α → Int)) : Except PyErr (Option α) :=
  match comparator with
  | none => (pyMaxWith (fun a b => decide (a < b)) s.iterable.materialize).map some
  | some c => (pyMaxWith (fun a b => decide (c a b < 0)) s.iterable.materialize).map some

/-- `Stream.__eq__`: `self.__iterable == value.__iterable` — Python
`==` on the stored iterables. Two lists compare elementwise; two
generator objects compare by identity; a list and a generator are
unequal. No materialization or consumption happens. -/
def Stream.eq [DecidableEq α] (p q : Stream α) : Bool :=
  match p.iterable, q.iterable with
  | .list l1, .list l2 => l1 == l2
  | .gen i _, .gen j _ => i == j
  | _, _ => false

/-- A fragment of Python values rich enough for comparability errors:
integers and strings are each comparable among themselves but mutually
non-comparable. -/
inductive PyVal : Type where
  | int : Int → PyVal
  | str : String → PyVal
deriving DecidableEq, Repr

/-- Python `a < b` on these values: defined within one type, raises
TypeError between an int and a str. -/
def pyLt : PyVal → PyVal → Except PyErr Bool
  | .int a, .int b => .ok (decide (a < b))
  | .str a, .str b => .ok (decide (a < b))
  | _, _ => .error .typeError

/-- Insertion step of the comparison sort: the first comparison that
raises aborts the whole sort with that error. -/
def insertE (lt : α → α → Except PyErr Bool) (x : α) :
    List α → Except PyErr (List α)
  | [] => .ok [x]
  | y :: ys =>
    match lt x y with
    | .error e => .error e
    | .ok true => .ok (x :: y :: ys)
    | .ok false => (insertE lt x ys).map (y :: ·)

/-- Python builtin `sorted(iterable)` modelled as a comparison sort
that eagerly materializes the iterable and raises the first TypeError
any element comparison raises. -/
def sortE (lt : α → α → Except PyErr Bool) : List α → Except PyErr (List α)
  | [] => .ok []
  | x :: xs =>
    match sortE lt xs with
    | .error e => .error e
    | .ok l => insertE lt x l

/-- Chaining `Stream.sorted` with the default comparator: the body is
`Stream(sorted(self.__iterable))`, so the builtin `sorted` runs inside
the chaining call itself — any comparison TypeError is raised at
pipeline-build time, before the new Stream exists. -/
def Stream.sorted (s : Stream PyVal) : Except PyErr (Stream PyVal) :=
  (sortE pyLt s.iterable.materialize).map (fun l => ⟨.list l⟩)

/-- One pull of the `IteratorUtils.iterate(seed, operator)` generator:
yields the current value and advances to `operator` of it; it never
signals exhaustion. Modelled from the spec: iterate produces seed,
f(seed), f(f(seed)), unbounded (spec section 4.1). -/
def iterateNext (f : α → α) (s : α) : Option (α × α) :=
  some (s, f s)

/-- Running a full materialization (`[... for elem in iterable]`) of a
pull source for at most `fuel` pulls: returns the complete list when
the source signals exhaustion within the budget, and `none` when the
budget is spent with the traversal still unfinished. -/
def matFuel (next : σ → Option (α × σ)) : Nat → σ → Option (List α)
  | 0, s =>
    match next s with
    | none => some []
    | some _ => none
  | k + 1, s =>
    match next s with
    | none => some []
    | some (a, s2) => (matFuel next k s2).map (a :: ·)

/-- The `anyMatch` body run against a pull source with a pull budget:
`any([predicate(elem) for elem in iterable])` first materializes the
whole comprehension, then takes `any` of the booleans; within `fuel`
pulls it produces a result only if materialization completed. -/
def anyMatchFuel (next : σ → Option (α × σ)) (pred : α → Bool)
    (fuel : Nat) (s : σ) : Option Bool :=
  (matFuel next fuel s).map (fun l => (l.map pred).any id)

/-- Driving an iterable once to exhaustion: yields its element
sequence; a Python list is left unchanged by iteration, while a
generator object is consumed and yields nothing afterwards. -/
def PyIterable.drive : PyIterable α → List α × PyIterable α
  | .list l => (l, .list l)
  | .gen i l => (l, .gen i [])

/-- Terminal `toList` with the post-call state of the Stream:
`list(self.__iterable)` builds a fresh list from one full drive and
leaves the Stream holding its (possibly consumed) iterable. -/
def Stream.toListRun (s : Stream α) : List α × Stream α :=
  (s.iterable.drive.1, ⟨s.iterable.drive.2⟩)

/-- Terminal `count` with the post-call state of the Stream: the for
loop increments a counter once per pulled element. -/
def Stream.countRun (s : Stream α) : Nat × Stream α :=
  (s.iterable.drive.1.length, ⟨s.iterable.drive.2⟩)

/-- Lifting a total accumulator on proper values to an accumulator on
Python values: it is never handed None and never returns None on
proper inputs. -/
def liftAcc (f : V → V → V) : Option V → Option V → Option V
  | some a, some b => some (f a b)
  | _, _ => none

theorem iterFilter_eq_filter (P : α → Bool) (S : List α) :
    iterFilter P S = S.filter P := by
  induction S with
  | nil => rfl
  | cons x xs ih =>
    by_cases h : P x <;> simp [iterFilter, List.filter, h, ih]

theorem iterTakeWhile_eq_takeWhile (P : α → Bool) (S : List α) :
    iterTakeWhile P S = S.takeWhile P := by
  induction S with
  | nil => rfl
  | cons x xs ih =>
    by_cases h : P x <;> simp [iterTakeWhile, List.takeWhile, h, ih]

theorem iterDropWhile_eq_dropWhile (P : α → Bool) (S : List α) :
    iterDropWhile P S = S.dropWhile P := by
  induction S with
  | nil => rfl
  | cons x xs ih =>
    by_cases h : P x <;> simp [iterDropWhile, List.dropWhile, h, ih]

theorem matFuel_iterateNext_eq_none (f : α → α) (fuel : Nat) (s : α) :
    matFuel (iterateNext f) fuel s = none := by
  induction fuel generalizing s with
  | zero => rfl
  | succ k ih => simp [matFuel, iterateNext, ih]

theorem reduceLoop_liftAcc (f : V → V → V) (t : List V) (h : V) :
    reduceLoop (liftAcc f) (some h) (t.map some) = some (t.foldl f h) := by
  induction t generalizing h with
  | nil => rfl
  | cons e es ih => simp [reduceLoop, liftAcc, List.foldl, ih]

/-- Claim C1: the claim says an empty pipeline yields an empty Optional
from min and max, with or without a comparator; the implementation
instead lets the Python builtin min or max raise ValueError on the
empty iterable before Optional.ofNullable ever runs. This theorem
evaluates all four calls of the claim at the failing input
Stream.empty(). -/
theorem c1_min_max_empty_raise_value_error :
    (Stream.mk (.list ([] : List Int))).min none = .error .valueError ∧
    (Stream.mk (.list ([] : List Int))).max none = .error .valueError ∧
    (Stream.mk (.list ([] : List Int))).min (some (fun a b => a - b)) =
      .error .valueError ∧
    (Stream.mk (.list ([] : List Int))).max (some (fun a b => a - b)) =
      .error .valueError :=
  ⟨rfl, rfl, rfl, rfl⟩

/-- Claim C2: the claim says anyMatch on an unbounded source terminates
and returns True when a match exists at a finite position. In the
implementation the list comprehension materializes the entire source
before any is applied, so on Stream.iterate(0, succ) with the
predicate matching already at the seed, no pull budget ever suffices
for the terminal to produce a result: it never terminates. -/
theorem c2_anyMatch_never_returns_on_iterate :
    ((fun x : Nat => x == 0) 0 = true) ∧
    ∀ fuel : Nat,
      anyMatchFuel (iterateNext (fun x : Nat => x + 1)) (fun x => x == 0)
        fuel 0 = none := by
  refine ⟨rfl, fun fuel => ?_⟩
  simp [anyMatchFuel, matFuel_iterateNext_eq_none]

/-- Claim C3: the claim says noneMatch returns True on any finite
pipeline with no matching element, including pipelines extended by
chaining combinators; the implementation calls len() on the underlying
iterable first, which raises TypeError when the pipeline is backed by
a lazy generator such as the one filter returns. This theorem
evaluates the failing input: the filtered pipeline has no element
above 5 (so the claim demands True), yet noneMatch raises. -/
theorem c3_noneMatch_raises_on_generator :
    ((Stream.mk (.list [(1 : Int), 2, 3])).filter
        (fun x => decide (1 < x))).noneMatch (fun x => decide (5 < x)) =
      .error .typeError ∧
    ((Stream.mk (.list [(1 : Int), 2, 3])).filter
        (fun x => decide (1 < x))).toList.all (fun x => !(decide (5 < x))) =
      true :=
  ⟨rfl, rfl⟩

/-- Claim C4 counterexample: with identity omitted, an accumulator that
returns None makes reduce return an empty Optional on a nonempty
sequence, contradicting the claim that the result is empty only when
no identity was given and the sequence is empty. -/
theorem c4_counterexample_nonempty_reduce_empty :
    (Stream.mk (.list [some (1 : Int), some 2])).reduce
        (fun _ _ => none) none = none ∧
    [some (1 : Int), some 2] ≠ ([] : List (Option Int)) :=
  ⟨rfl, by decide⟩

/-- Claim C4 amended: for sequences of non-None elements and an
accumulator that never returns None, reduce with identity omitted
folds left-to-right with the first element seeding the accumulator and
folding from the second element, and returns an empty Optional exactly
when the sequence is empty. -/
theorem c4_reduce_folds_none_free (f : V → V → V) (S : List V) :
    (Stream.mk (.list (S.map some))).reduce (liftAcc f) none =
      match S with
      | [] => none
      | h :: t => some (t.foldl f h) := by
  cases S with
  | nil => rfl
  | cons h t =>
    show reduceLoop (liftAcc f) none (some h :: t.map some) = _
    rw [reduceLoop]
    exact reduceLoop_liftAcc f t h

/-- Claim C5 counterexample: on a pipeline holding an int and a str —
mutually non-comparable values — chaining sorted() already raises
TypeError at pipeline-build time, because the builtin sorted runs
eagerly inside the chaining call; the claim said the build cannot
raise and the error waits for a terminal operation. -/
theorem c5_counterexample_sorted_raises_at_build :
    (Stream.mk (.list [PyVal.int 0, PyVal.str "a"])).sorted =
      .error .typeError :=
  rfl

/-- Claim C5 amended: sorted() is eager — for every pipeline holding an
int and a str, the TypeError from comparing the non-comparable pair
surfaces when sorted() is chained, before any terminal operation
drives the pipeline. -/
theorem c5_sorted_raises_eagerly (n : Int) (s2 : String) :
    (Stream.mk (.list [PyVal.int n, PyVal.str s2])).sorted =
      .error .typeError :=
  rfl

/-- Claim C6 counterexample: a list-backed pipeline and a
generator-backed pipeline that materialize to the same element
sequence compare unequal, contradicting the claim that equality holds
exactly when the materialized sequences are equal. -/
theorem c6_counterexample_list_vs_gen :
    Stream.eq (Stream.mk (.list [(1 : Int)])) (Stream.mk (.gen 0 [1])) =
      false ∧
    (Stream.mk (.list [(1 : Int)])).iterable.materialize =
      (Stream.mk (.gen 0 [(1 : Int)])).iterable.materialize :=
  ⟨rfl, rfl⟩

/-- Claim C6 amended: equality compares the stored iterables with
Python equality and consumes nothing — two list-backed pipelines are
equal exactly when their lists are elementwise equal, two
generator-backed pipelines exactly when they hold the same generator
object, and a list-backed and a generator-backed pipeline are never
equal regardless of elements. -/
theorem c6_eq_compares_underlying_iterables [DecidableEq α]
    (l1 l2 g1 g2 : List α) (i j : Nat) :
    (Stream.eq (Stream.mk (.list l1)) (Stream.mk (.list l2)) = true ↔
      l1 = l2) ∧
    (Stream.eq (Stream.mk (.gen i g1)) (Stream.mk (.gen j g2)) = true ↔
      i = j) ∧
    Stream.eq (Stream.mk (.list l1)) (Stream.mk (.gen i g1)) = false := by
  refine ⟨?_, ?_, rfl⟩ <;> simp [Stream.eq]

/-- Claim C7: for every finite sequence S and predicate P, filtering
then materializing yields the order-preserving sublist of S of exactly
the elements on which P holds. -/
theorem c7_filter_toList (S : List α) (P : α → Bool) :
    ((Stream.mk (.list S)).filter P).toList = S.filter P :=
  iterFilter_eq_filter P S

/-- Claim C8: takeWhile materializes to the longest prefix of S on
which P holds, dropWhile to the remaining suffix from the first
failing element, and their concatenation restores S. -/
theorem c8_takeWhile_dropWhile_split (S : List α) (P : α → Bool) :
    ((Stream.mk (.list S)).takeWhile P).toList = S.takeWhile P ∧
    ((Stream.mk (.list S)).dropWhile P).toList = S.dropWhile P ∧
    ((Stream.mk (.list S)).takeWhile P).toList ++
      ((Stream.mk (.list S)).dropWhile P).toList = S := by
  refine ⟨iterTakeWhile_eq_takeWhile P S, iterDropWhile_eq_dropWhile P S, ?_⟩
  rw [show ((Stream.mk (.list S)).takeWhile P).toList = S.takeWhile P from
    iterTakeWhile_eq_takeWhile P S]
  rw [show ((Stream.mk (.list S)).dropWhile P).toList = S.dropWhile P from
    iterDropWhile_eq_dropWhile P S]
  exact List.takeWhile_append_dropWhile P S

/-- Claim C9: findAny returns exactly what findFirst returns — the
Optional of the first pulled element, empty when the pipeline is
immediately exhausted. -/
theorem c9_findAny_is_findFirst (s : Stream α) :
    s.findAny = s.findFirst ∧ s.findFirst = s.iterable.materialize.head? :=
  ⟨rfl, rfl⟩

/-- Claim C10: on a list-backed Stream, toList and count leave the
stored list unchanged, and a second terminal call on the same Stream
returns the same result as the first. -/
theorem c10_list_backed_repeatable (l : List α) :
    ((Stream.mk (.list l)).toListRun.1 = l ∧
      (Stream.mk (.list l)).toListRun.2 = Stream.mk (.list l)) ∧
    ((Stream.mk (.list l)).countRun.1 = l.length ∧
      (Stream.mk (.list l)).countRun.2 = Stream.mk (.list l)) ∧
    ((Stream.mk (.list l)).toListRun.2).toListRun.1 =
      (Stream.mk (.list l)).toListRun.1 ∧
    ((Stream.mk (.list l)).countRun.2).countRun.1 =
      (Stream.mk (.list l)).countRun.1 :=
  ⟨⟨rfl, rfl⟩, ⟨rfl, rfl⟩, rfl, rfl⟩

end PyStream
